import Mathlib

/-!
Verification of the SSH tunnel supervisor and helper utilities of the
XENITz/proxy repository (src/main.py and src/proxy_app.py), shallowly
embedded in Lean 4.

The embedding follows the Python source:
  * `isConnectedLine` is the output classifier of `SSHWorker.run`
    (src/main.py line 137): case-sensitive substring containment.
  * `get_instance_public_dns` models the EC2 address resolution
    (src/main.py lines 76-105) as a pure function of the API outcome.
  * `SSHWorker.run` models the worker body (src/main.py lines 107-156) as a
    function from an environment (resolution outcome, spawn outcome, stderr
    lines, final poll result, stop-request timing) to the ordered list of
    emitted events plus whether a child-process handle was assigned.
  * `SSHWorker.stop` / `MainWindow.stop_connection` model the stop paths
    (src/main.py lines 158-166 and 354-359).
  * `AWSCredentialsManager` models src/main.py lines 17-58.
  * `compare_versions` models src/proxy_app.py lines 20-37, down to
    Python `int()` parsing (sign, surrounding whitespace, digit groups
    separated by single underscores) and `str.split`.
-/

/-- Characters stripped by Python `str.strip()` / `str.rstrip()` (ASCII whitespace). -/
def pyIsSpace (c : Char) : Bool :=
  c = ' ' || c = '\t' || c = '\n' || c = '\r' || c = '\x0b' || c = '\x0c'

/-- Python `str.rstrip()` with no argument. -/
def pyRstrip (s : String) : String :=
  ⟨(s.data.reverse.dropWhile pyIsSpace).reverse⟩

/-- Python `str.strip()` with no argument. -/
def pyStrip (s : String) : String :=
  ⟨((s.data.dropWhile pyIsSpace).reverse.dropWhile pyIsSpace).reverse⟩

/-- `isPre p l` is true when the list `p` begins the list `l`. -/
def isPre : List Char → List Char → Bool
  | [], _ => true
  | _ :: _, [] => false
  | a :: as, b :: bs => a == b && isPre as bs

/-- Python substring containment `needle in hay`, on character lists. -/
def containsSub (needle : List Char) : List Char → Bool
  | [] => isPre needle []
  | c :: t => isPre needle (c :: t) || containsSub needle t

/-- Propositional form of substring containment. -/
def StrContains (hay needle : String) : Prop :=
  ∃ s t, hay.data = s ++ needle.data ++ t

/-- The output classifier of `SSHWorker.run` (src/main.py line 137):
`"Warning" in text or "authorized_keys" in text or "Connecting" in text`. -/
def isConnectedLine (text : String) : Bool :=
  containsSub "Warning".data text.data
    || containsSub "authorized_keys".data text.data
    || containsSub "Connecting".data text.data

theorem isPre_iff (p : List Char) : ∀ l, isPre p l = true ↔ ∃ t, l = p ++ t := by
  induction p with
  | nil =>
    intro l
    simp [isPre]
  | cons a as ih =>
    intro l
    cases l with
    | nil => simp [isPre]
    | cons b bs =>
      simp only [isPre, Bool.and_eq_true, beq_iff_eq, List.cons_append, List.cons.injEq]
      constructor
      · rintro ⟨rfl, h⟩
        obtain ⟨t, rfl⟩ := (ih bs).1 h
        exact ⟨t, rfl, rfl⟩
      · rintro ⟨t, rfl, h⟩
        exact ⟨rfl, (ih bs).2 ⟨t, h⟩⟩

theorem containsSub_iff (p : List Char) : ∀ l, containsSub p l = true ↔ ∃ s t, l = s ++ p ++ t := by
  intro l
  induction l with
  | nil =>
    simp only [containsSub, isPre_iff]
    constructor
    · rintro ⟨t, h⟩
      exact ⟨[], t, by simpa using h⟩
    · rintro ⟨s, t, h⟩
      refine ⟨t, ?_⟩
      rcases List.append_eq_nil.mp (List.append_eq_nil.mp h.symm).1 with ⟨rfl, rfl⟩
      simpa using h
  | cons c cs ih =>
    simp only [containsSub, Bool.or_eq_true, isPre_iff, ih]
    constructor
    · rintro (⟨t, h⟩ | ⟨s, t, h⟩)
      · exact ⟨[], t, by simpa using h⟩
      · exact ⟨c :: s, t, by simp [h]⟩
    · rintro ⟨s, t, h⟩
      cases s with
      | nil => exact Or.inl ⟨t, by simpa using h⟩
      | cons d ds =>
        rw [List.cons_append, List.cons_append, List.cons.injEq] at h
        exact Or.inr ⟨ds, t, by simp [h.2]⟩

/-- Events observable on the worker's notification channel: `log` models the
`log` Qt signal, `connected` the `connected` Qt signal, and `finished` the
`QThread.finished` signal emitted once `run` returns. -/
inductive Event where
  | log (msg : String)
  | connected (ok : Bool)
  | finished
deriving DecidableEq

/-- One EC2 instance record as far as the code reads it:
`instance.get("PublicDnsName")` (`none` = key absent). -/
structure Ec2Instance where
  publicDnsName : Option String

/-- One reservation record: `reservation.get("Instances", [])`. -/
structure Reservation where
  instances : List Ec2Instance

/-- The `describe_instances` response: `response.get("Reservations", [])`. -/
structure Ec2Response where
  reservations : List Reservation

/-- Outcome of the AWS API call in `get_instance_public_dns`: either any
exception raised inside the `try` block (bad credentials, unreachable
service, boto3 errors), or a response object. -/
inductive ResolveEnv where
  | apiError (msg : String)
  | response (resp : Ec2Response)

/-- `SSHWorker.get_instance_public_dns` (src/main.py lines 76-105): returns the
log lines it emits and the resolved public DNS name (`none` on any failure).
An empty `PublicDnsName` string is falsy in Python, hence also a failure. -/
def get_instance_public_dns (instance_id : String) (env : ResolveEnv) :
    List Event × Option String :=
  match env with
  | ResolveEnv.apiError msg =>
      ([Event.log ("Error al obtener DNS público: " ++ msg)], none)
  | ResolveEnv.response resp =>
      match resp.reservations with
      | [] => ([Event.log ("No se encontró la instancia " ++ instance_id)], none)
      | reservation :: _ =>
          match reservation.instances with
          | [] => ([Event.log ("No se encontró la instancia " ++ instance_id)], none)
          | inst :: _ =>
              match inst.publicDnsName with
              | none =>
                  ([Event.log ("La instancia " ++ instance_id ++ " no tiene un DNS público")],
                    none)
              | some public_dns =>
                  if public_dns.isEmpty then
                    ([Event.log ("La instancia " ++ instance_id ++ " no tiene un DNS público")],
                      none)
                  else ([], some public_dns)

/-- Outcome of `subprocess.Popen` in `SSHWorker.run`: success,
`FileNotFoundError` (ssh missing from PATH), or any other exception
(caught by the generic `except Exception` handler). -/
inductive SpawnEnv where
  | ok
  | fileNotFound
  | otherError (msg : String)

/-- Environment of one execution of `SSHWorker.run`: everything the external
world decides.  `stopAt = some k` means the `_stop_requested` flag reads true
from the k-th loop check onward (check `k = stderrLines.length` is the
post-loop `if not self._stop_requested` check); `none` means stop is never
requested during the run.  `pollAtEnd` is what `self._proc.poll()` returns
after the stderr stream reaches end-of-stream, and `stderrRest` is what the
trailing `self._proc.stderr.read()` returns there. -/
structure RunEnv where
  instance_id : String
  resolve : ResolveEnv
  spawn : SpawnEnv
  stderrLines : List String
  stderrRest : String
  pollAtEnd : Option Int
  stopAt : Option Nat

/-- Value of the monotone `_stop_requested` flag at check number `i`. -/
def flagAt (stopAt : Option Nat) (i : Nat) : Bool :=
  match stopAt with
  | none => false
  | some k => decide (k ≤ i)

/-- The stderr read loop of `SSHWorker.run` (src/main.py lines 131-138):
per line, break if stop was requested, otherwise emit the log line and, when
the classifier matches the rstripped text, emit `connected True`. -/
def readLoop (stopAt : Option Nat) : Nat → List String → List Event
  | _, [] => []
  | i, line :: rest =>
      if flagAt stopAt i then []
      else if isConnectedLine (pyRstrip line) then
        Event.log ("SSH: " ++ pyRstrip line) :: Event.connected true
          :: readLoop stopAt (i + 1) rest
      else
        Event.log ("SSH: " ++ pyRstrip line) :: readLoop stopAt (i + 1) rest

/-- `SSHWorker.run` (src/main.py lines 107-156): returns the ordered events
emitted on the notification channel, and whether `self._proc` was assigned a
child-process handle.  Resolution failure returns before spawning;
`FileNotFoundError` and other spawn exceptions are caught and converted to a
log line plus `connected False`; after the read loop, if stop was not
requested, a live process (poll `none`) yields the fallback `connected True`
while an exited process yields the failure log (with the remaining buffered
stderr, stripped) plus `connected False`. -/
def SSHWorker.run (env : RunEnv) : List Event × Bool :=
  match get_instance_public_dns env.instance_id env.resolve with
  | (evs, none) => (evs ++ [Event.connected false], false)
  | (evs, some public_dns) =>
      match env.spawn with
      | SpawnEnv.fileNotFound =>
          (evs ++ [Event.log ("Conectando a " ++ public_dns ++ "..."),
            Event.log "Iniciando proceso SSH...",
            Event.log "Error: \x27ssh\x27 no se encuentra en PATH. Verifica que SSH esté instalado.",
            Event.connected false], false)
      | SpawnEnv.otherError msg =>
          (evs ++ [Event.log ("Conectando a " ++ public_dns ++ "..."),
            Event.log "Iniciando proceso SSH...",
            Event.log ("Error inesperado en SSHWorker: " ++ msg),
            Event.connected false], false)
      | SpawnEnv.ok =>
          if flagAt env.stopAt env.stderrLines.length then
            (evs ++ [Event.log ("Conectando a " ++ public_dns ++ "..."),
              Event.log "Iniciando proceso SSH..."]
              ++ readLoop env.stopAt 0 env.stderrLines, true)
          else
            match env.pollAtEnd with
            | none =>
                (evs ++ [Event.log ("Conectando a " ++ public_dns ++ "..."),
                  Event.log "Iniciando proceso SSH..."]
                  ++ readLoop env.stopAt 0 env.stderrLines
                  ++ [Event.connected true], true)
            | some rc =>
                (evs ++ [Event.log ("Conectando a " ++ public_dns ++ "..."),
                  Event.log "Iniciando proceso SSH..."]
                  ++ readLoop env.stopAt 0 env.stderrLines
                  ++ [Event.log ("SSH finalizó (rc=" ++ toString rc ++ "): "
                        ++ pyStrip env.stderrRest),
                      Event.connected false], true)

/-- The full event trace of the worker thread: the events `run` emits followed
by the `QThread.finished` signal fired when `run` returns. -/
def threadTrace (env : RunEnv) : List Event :=
  (SSHWorker.run env).1 ++ [Event.finished]

/-- Whether an event is a status notification (`ConnectionStatus` message). -/
def isStatusEvent : Event → Bool
  | Event.connected _ => true
  | _ => false

/-- Number of status notifications in a trace. -/
def statusCount (evs : List Event) : Nat :=
  evs.countP isStatusEvent

/-- The per-worker mutable state `SSHWorker.stop` touches: the monotone
`_stop_requested` flag and whether `self._proc` holds a handle. -/
structure WorkerState where
  stop_requested : Bool
  has_proc : Bool
deriving DecidableEq

/-- `SSHWorker.stop` (src/main.py lines 158-166): sets `_stop_requested`,
best-effort terminates the child (exceptions swallowed, no channel event),
and waits up to 2000 ms for the thread.  It emits nothing on the
notification channel and never raises, so it is modelled as a total function
returning the new state and the (empty) list of emitted events. -/
def SSHWorker.stop (s : WorkerState) : WorkerState × List Event :=
  ({ s with stop_requested := true }, [])

/-- `MainWindow.stop_connection` (src/main.py lines 354-359): returns
immediately when no worker is active, otherwise logs and calls `stop`.
Result: new worker reference and appended log lines. -/
def MainWindow.stop_connection (worker : Option WorkerState) :
    Option WorkerState × List String :=
  match worker with
  | none => (none, [])
  | some s => (some (SSHWorker.stop s).1, ["Terminando conexión..."])

/-- `AWSCredentialsManager` state (src/main.py lines 17-24). -/
structure AWSCredentialsManager where
  aws_access_key_id : String
  aws_secret_access_key : String
  region_name : String
  initialized : Bool

/-- `AWSCredentialsManager.__init__`. -/
def AWSCredentialsManager.new : AWSCredentialsManager :=
  { aws_access_key_id := "", aws_secret_access_key := "", region_name := "",
    initialized := false }

/-- `AWSCredentialsManager.init_from_values` (src/main.py lines 37-43):
stores the values and sets `initialized = bool(access_key and secret_key)`,
i.e. true exactly when both strings are non-empty. -/
def AWSCredentialsManager.init_from_values (_m : AWSCredentialsManager)
    (access_key secret_key region : String) : AWSCredentialsManager :=
  { aws_access_key_id := access_key, aws_secret_access_key := secret_key,
    region_name := region,
    initialized := decide (access_key ≠ "" ∧ secret_key ≠ "") }

/-- The argument record passed to `boto3.client`. -/
structure Boto3Client where
  service_name : String
  aws_access_key_id : String
  aws_secret_access_key : String
  region_name : String

/-- `AWSCredentialsManager.get_client` (src/main.py lines 45-54): raises
`ValueError` when not initialized, else builds the boto3 client. -/
def AWSCredentialsManager.get_client (m : AWSCredentialsManager)
    (service_name : String) : Except String Boto3Client :=
  if m.initialized then
    Except.ok ⟨service_name, m.aws_access_key_id, m.aws_secret_access_key, m.region_name⟩
  else Except.error "AWS credentials not initialized"

/-- Python `str.split(".")` on character lists: splits at every dot, keeping
empty pieces (`"".split(".") == [""]`). -/
def pySplitDot : List Char → List (List Char)
  | [] => [[]]
  | c :: rest =>
      if c = '.' then [] :: pySplitDot rest
      else
        match pySplitDot rest with
        | [] => [[c]]
        | p :: ps => (c :: p) :: ps

/-- Numeric value of an ASCII digit. -/
def digitVal (c : Char) : Nat := c.toNat - 48

/-- Digits after the first one in Python `int()`: ASCII digits, with single
underscores allowed between digits. -/
def pyDigitsRest (acc : Nat) : List Char → Option Nat
  | [] => some acc
  | '_' :: [] => none
  | '_' :: c :: rest =>
      if c.isDigit then pyDigitsRest (acc * 10 + digitVal c) rest else none
  | c :: rest =>
      if c.isDigit then pyDigitsRest (acc * 10 + digitVal c) rest else none

/-- Digit-group parsing for Python `int()`: non-empty, starts with a digit. -/
def pyDigits : List Char → Option Nat
  | [] => none
  | c :: rest => if c.isDigit then pyDigitsRest (digitVal c) rest else none

/-- Python `int(s)` on a character list: optional surrounding whitespace,
optional sign, then digits; `none` models `ValueError`. -/
def pyParseIntChars (l : List Char) : Option Int :=
  match (l.dropWhile pyIsSpace).reverse.dropWhile pyIsSpace |>.reverse with
  | '+' :: rest => (pyDigits rest).map fun n => (n : Int)
  | '-' :: rest => (pyDigits rest).map fun n => -(n : Int)
  | rest => (pyDigits rest).map fun n => (n : Int)

/-- `[int(x) for x in version.split(".")]`: `none` models the `ValueError`
caught in `compare_versions`. -/
def parseParts : List (List Char) → Option (List Int)
  | [] => some []
  | p :: ps =>
      match pyParseIntChars p, parseParts ps with
      | some n, some ns => some (n :: ns)
      | _, _ => none

/-- The `while len(parts) < 3: parts.append(0)` loop; three iterations always
suffice to reach length 3. -/
def padLoop : Nat → List Int → List Int
  | 0, l => l
  | n + 1, l => if l.length < 3 then padLoop n (l ++ [0]) else l

/-- Zero-padding of a component list to at least three entries. -/
def padTo3 (l : List Int) : List Int := padLoop 3 l

/-- The comparison loop of `compare_versions`: first strictly greater
component gives 1, first strictly smaller gives -1, otherwise 0. -/
def cmpZip : List (Int × Int) → Int
  | [] => 0
  | (a, b) :: rest => if a > b then 1 else if a < b then -1 else cmpZip rest

/-- `compare_versions` (src/proxy_app.py lines 20-37): parse both versions as
dot-separated integers (any `ValueError` gives 0), pad to three components,
and compare the first three componentwise. -/
def compare_versions (version1 version2 : String) : Int :=
  match parseParts (pySplitDot version1.data), parseParts (pySplitDot version2.data) with
  | some v1_parts, some v2_parts =>
      cmpZip (List.zip ((padTo3 v1_parts).take 3) ((padTo3 v2_parts).take 3))
  | _, _ => 0

/-- Concrete environment used to refute claim C3 as stated: a line matching
the heuristic, followed by end-of-stream with the child already exited. -/
def envC3 : RunEnv :=
  { instance_id := "i-abc", resolve := ResolveEnv.response ⟨[⟨[⟨some "host"⟩]⟩]⟩,
    spawn := SpawnEnv.ok,
    stderrLines := ["Warning: Permanently added host to the list of known hosts.\n"],
    stderrRest := "", pollAtEnd := some 255, stopAt := none }

/-- Concrete environment used to refute claim C4 as stated: stop requested
before the read loop forwards anything, spawn and resolution successful. -/
def envC4 : RunEnv :=
  { instance_id := "i-abc", resolve := ResolveEnv.response ⟨[⟨[⟨some "host"⟩]⟩]⟩,
    spawn := SpawnEnv.ok, stderrLines := ["debug1: reading configuration\n"],
    stderrRest := "", pollAtEnd := some 0, stopAt := some 0 }

/-- Concrete environment for the C2 witness: successful resolution and spawn,
no stop request, stream ends while the process is still alive. -/
def envC2w : RunEnv :=
  { instance_id := "i-1", resolve := ResolveEnv.response ⟨[⟨[⟨some "h"⟩]⟩]⟩,
    spawn := SpawnEnv.ok, stderrLines := [], stderrRest := "",
    pollAtEnd := none, stopAt := none }

/-- Concrete environment for the C5 witness: ssh executable missing. -/
def envC5w : RunEnv :=
  { instance_id := "i-1", resolve := ResolveEnv.response ⟨[⟨[⟨some "h"⟩]⟩]⟩,
    spawn := SpawnEnv.fileNotFound, stderrLines := [], stderrRest := "",
    pollAtEnd := none, stopAt := none }

/-- Concrete environment for the C6/C7 witnesses: no reservation found. -/
def envC6w : RunEnv :=
  { instance_id := "i-1", resolve := ResolveEnv.response ⟨[]⟩,
    spawn := SpawnEnv.ok, stderrLines := [], stderrRest := "",
    pollAtEnd := none, stopAt := none }

/-- Concrete environment for the C3-amended witness: clean run, process
exited by end-of-stream. -/
def envC3w : RunEnv :=
  { instance_id := "i-1", resolve := ResolveEnv.response ⟨[⟨[⟨some "h"⟩]⟩]⟩,
    spawn := SpawnEnv.ok, stderrLines := [], stderrRest := "",
    pollAtEnd := some 255, stopAt := none }

/-- Concrete environment for the C4-amended witness: the stop flag is first
observed at loop check 1, after one forwarded non-matching line. -/
def envC4w : RunEnv :=
  { instance_id := "i-1", resolve := ResolveEnv.response ⟨[⟨[⟨some "h"⟩]⟩]⟩,
    spawn := SpawnEnv.ok,
    stderrLines := ["debug1: reading configuration\n", "debug1: identity file\n"],
    stderrRest := "", pollAtEnd := none, stopAt := some 1 }

theorem resolve_cases (instance_id : String) (e : ResolveEnv) :
    (∃ m, get_instance_public_dns instance_id e = ([Event.log m], none))
    ∨ (∃ dns, get_instance_public_dns instance_id e = ([], some dns)) := by
  rcases e with msg | ⟨resList⟩
  · exact Or.inl ⟨_, rfl⟩
  · rcases resList with _ | ⟨⟨insts⟩, rs⟩
    · exact Or.inl ⟨_, rfl⟩
    · rcases insts with _ | ⟨⟨pdns⟩, is2⟩
      · exact Or.inl ⟨_, rfl⟩
      · rcases pdns with _ | d
        · exact Or.inl ⟨_, rfl⟩
        · by_cases hd : d.isEmpty
          · exact Or.inl ⟨"La instancia " ++ instance_id ++ " no tiene un DNS público",
              by simp [get_instance_public_dns, hd]⟩
          · exact Or.inr ⟨d, by simp [get_instance_public_dns, hd]⟩

theorem resolve_ok_no_logs (instance_id : String) (e : ResolveEnv) (dns : String)
    (h : (get_instance_public_dns instance_id e).2 = some dns) :
    get_instance_public_dns instance_id e = ([], some dns) := by
  rcases resolve_cases instance_id e with ⟨m, hr⟩ | ⟨d, hr⟩
  · rw [hr] at h
    simp at h
  · rw [hr] at h ⊢
    simp at h
    rw [h]

theorem readLoop_events (stopAt : Option Nat) :
    ∀ (lines : List String) (i : Nat) (e : Event), e ∈ readLoop stopAt i lines →
      (∃ m, e = Event.log m) ∨ e = Event.connected true := by
  intro lines
  induction lines with
  | nil =>
    intro i e h
    simp [readLoop] at h
  | cons line rest ih =>
    intro i e h
    rw [readLoop] at h
    split at h
    · simp at h
    · split at h <;> rw [List.mem_cons] at h <;> rcases h with h | h
      · exact Or.inl ⟨_, h⟩
      · rw [List.mem_cons] at h
        rcases h with h | h
        · exact Or.inr h
        · exact ih (i + 1) e h
      · exact Or.inl ⟨_, h⟩
      · exact ih (i + 1) e h

theorem readLoop_no_connected_false (stopAt : Option Nat) (lines : List String) (i : Nat) :
    Event.connected false ∉ readLoop stopAt i lines := by
  intro h
  rcases readLoop_events stopAt lines i _ h with ⟨m, hm⟩ | hm <;> simp at hm

theorem readLoop_no_finished (stopAt : Option Nat) (lines : List String) (i : Nat) :
    Event.finished ∉ readLoop stopAt i lines := by
  intro h
  rcases readLoop_events stopAt lines i _ h with ⟨m, hm⟩ | hm <;> simp at hm

theorem readLoop_stop_zero (lines : List String) (i : Nat) :
    readLoop (some 0) i lines = [] := by
  cases lines <;> simp [readLoop, flagAt]

theorem readLoop_nomatch (k : Nat) :
    ∀ (lines : List String) (i : Nat),
      (∀ line ∈ lines.take (k - i), isConnectedLine (pyRstrip line) = false) →
      ∀ e ∈ readLoop (some k) i lines, ∃ m, e = Event.log m := by
  intro lines
  induction lines with
  | nil =>
    intro i h e he
    simp [readLoop] at he
  | cons line rest ih =>
    intro i h e he
    rw [readLoop] at he
    split at he
    · simp at he
    · rename_i hflag
      have hik : i < k := by
        simp [flagAt] at hflag
        omega
      have htake : (line :: rest).take (k - i) = line :: rest.take (k - i - 1) := by
        have hsucc : k - i = (k - i - 1) + 1 := by omega
        conv_lhs => rw [hsucc]
        rw [List.take_succ_cons]
      have hline : isConnectedLine (pyRstrip line) = false := by
        apply h
        rw [htake]
        exact List.mem_cons_self _ _
      have hrest : ∀ line2 ∈ rest.take (k - (i + 1)),
          isConnectedLine (pyRstrip line2) = false := by
        intro line2 hmem
        apply h
        rw [htake]
        apply List.mem_cons_of_mem
        have hidx : k - (i + 1) = k - i - 1 := by omega
        rwa [hidx] at hmem
      rw [hline] at he
      simp only [Bool.false_eq_true, if_false] at he
      rcases List.mem_cons.mp he with rfl | he2
      · exact ⟨_, rfl⟩
      · exact ih (i + 1) hrest e he2

theorem run_no_finished (env : RunEnv) : Event.finished ∉ (SSHWorker.run env).1 := by
  rcases resolve_cases env.instance_id env.resolve with ⟨m, hr⟩ | ⟨dns, hr⟩
  · simp [SSHWorker.run, hr]
  · rcases hs : env.spawn with _ | _ | msg
    · by_cases hf : flagAt env.stopAt env.stderrLines.length
      · simp [SSHWorker.run, hr, hs, hf, readLoop_no_finished]
      · cases hp : env.pollAtEnd <;>
          simp [SSHWorker.run, hr, hs, hf, hp, readLoop_no_finished]
    · simp [SSHWorker.run, hr, hs]
    · simp [SSHWorker.run, hr, hs]

/-- A trace in which no status notification appears before the first log
line.  After a log everything is allowed. -/
def noEarlyStatus : List Event → Bool
  | [] => true
  | Event.log _ :: _ => true
  | Event.connected _ :: _ => false
  | Event.finished :: rest => noEarlyStatus rest

theorem noEarlyStatus_spec (evs : List Event) (h : noEarlyStatus evs = true) :
    ∀ i b, evs.get? i = some (Event.connected b) →
      ∃ j, j < i ∧ ∃ m, evs.get? j = some (Event.log m) := by
  induction evs with
  | nil =>
    intro i b hi
    simp at hi
  | cons e rest ih =>
    intro i b hi
    cases e with
    | log m =>
      cases i with
      | zero => simp at hi
      | succ i => exact ⟨0, Nat.succ_pos i, m, rfl⟩
    | connected c => simp [noEarlyStatus] at h
    | finished =>
      rw [noEarlyStatus] at h
      cases i with
      | zero => simp at hi
      | succ i =>
        obtain ⟨j, hj, m, hm⟩ := ih h i b hi
        exact ⟨j + 1, Nat.succ_lt_succ hj, m, hm⟩

theorem run_noEarlyStatus (env : RunEnv) : noEarlyStatus (threadTrace env) = true := by
  rcases resolve_cases env.instance_id env.resolve with ⟨m, hr⟩ | ⟨dns, hr⟩
  · simp [threadTrace, SSHWorker.run, hr, noEarlyStatus]
  · rcases hs : env.spawn with _ | _ | msg
    · by_cases hf : flagAt env.stopAt env.stderrLines.length
      · simp [threadTrace, SSHWorker.run, hr, hs, hf, noEarlyStatus]
      · cases hp : env.pollAtEnd <;>
          simp [threadTrace, SSHWorker.run, hr, hs, hf, hp, noEarlyStatus]
    · simp [threadTrace, SSHWorker.run, hr, hs, noEarlyStatus]
    · simp [threadTrace, SSHWorker.run, hr, hs, noEarlyStatus]

theorem cmpZip_antisymm : ∀ l1 l2 : List Int, cmpZip (l2.zip l1) = -cmpZip (l1.zip l2) := by
  intro l1
  induction l1 with
  | nil =>
    intro l2
    cases l2 <;> rfl
  | cons a as ih =>
    intro l2
    cases l2 with
    | nil => rfl
    | cons b bs =>
      rw [List.zip_cons_cons, List.zip_cons_cons]
      rcases lt_trichotomy a b with h | rfl | h
      · simp [cmpZip, h, asymm h]
      · simp [cmpZip, ih bs]
      · simp [cmpZip, h, asymm h]

theorem parseParts_eq_none {p : List Char} (hp : pyParseIntChars p = none) :
    ∀ {ps : List (List Char)}, p ∈ ps → parseParts ps = none := by
  intro ps
  induction ps with
  | nil => simp
  | cons q qs ih =>
    intro hmem
    rcases List.mem_cons.mp hmem with rfl | hmem'
    · simp [parseParts, hp]
    · cases pyParseIntChars q <;> simp [parseParts, ih hmem']

/-- C1: for every diagnostic line, the connection heuristic of `SSHWorker.run`
signals `connected True` if and only if the classified text contains at least
one of the fixed case-sensitive substrings "Warning", "authorized_keys",
"Connecting"; a line containing none of them — e.g. only the lowercase
variant "warning" — produces no connected signal.  The third conjunct ties
the classifier to the emission in the read loop. -/
theorem C1_classifier_iff_substring :
    (∀ text : String, isConnectedLine text = true ↔
      (StrContains text "Warning" ∨ StrContains text "authorized_keys"
        ∨ StrContains text "Connecting"))
    ∧ isConnectedLine "warning: Permanently added host." = false
    ∧ (∀ line : String,
        Event.connected true ∈ readLoop none 0 [line]
          ↔ isConnectedLine (pyRstrip line) = true) := by
  refine ⟨?_, by decide, ?_⟩
  · intro text
    simp only [isConnectedLine, Bool.or_eq_true, containsSub_iff, StrContains]
    exact or_assoc
  · intro line
    by_cases h : isConnectedLine (pyRstrip line) <;> simp [readLoop, flagAt, h]

/-- C8: `SSHWorker.stop` sets the stop flag and emits nothing on the
notification channel; it is idempotent, the flag only moves from false to
true (never reset), and `MainWindow.stop_connection` with no active worker
returns without error, without logs and without any notification. -/
theorem C8_stop_idempotent :
    (∀ s : WorkerState,
      (SSHWorker.stop s).1.stop_requested = true ∧ (SSHWorker.stop s).2 = [])
    ∧ (∀ s : WorkerState, SSHWorker.stop (SSHWorker.stop s).1 = SSHWorker.stop s)
    ∧ (∀ s : WorkerState, s.stop_requested = true →
        (SSHWorker.stop s).1.stop_requested = true)
    ∧ MainWindow.stop_connection none = (none, []) :=
  ⟨fun _ => ⟨rfl, rfl⟩, fun _ => rfl, fun _ _ => rfl, rfl⟩

/-- Witness for C8: a second `stop` on an already-stopped worker keeps the
flag at true. -/
theorem C8_witness :
    (SSHWorker.stop ⟨true, true⟩).1.stop_requested = true :=
  C8_stop_idempotent.2.2.1 ⟨true, true⟩ rfl

/-- C9: `get_client` fails (raises `ValueError`) exactly when `initialized`
is false, and after `init_from_values` the manager is initialized if and only
if both the access key and the secret key are non-empty; an empty region
still yields an initialized manager. -/
theorem C9_credentials :
    (∀ (m : AWSCredentialsManager) (s : String),
      (∃ e, m.get_client s = Except.error e) ↔ m.initialized = false)
    ∧ (∀ (m : AWSCredentialsManager) (a k r : String),
        (m.init_from_values a k r).initialized = true ↔ (a ≠ "" ∧ k ≠ ""))
    ∧ (AWSCredentialsManager.new.init_from_values "AKIA" "SECRET" "").initialized = true := by
  refine ⟨?_, ?_, by decide⟩
  · intro m s
    cases h : m.initialized <;> simp [AWSCredentialsManager.get_client, h]
  · intro m a k r
    simp [AWSCredentialsManager.init_from_values]

/-- C10: `compare_versions` compares only the first three numeric components,
padding missing components with zeros: it is reflexive on all inputs,
`"1.2"` equals `"1.2.0"`, a fourth component is ignored, it is antisymmetric
(`compare_versions a b = -compare_versions b a`), and any non-numeric
component of either argument forces the result 0. -/
theorem C10_compare_versions :
    (∀ a : String, compare_versions a a = 0)
    ∧ compare_versions "1.2" "1.2.0" = 0
    ∧ compare_versions "1.2.3.4" "1.2.3.9" = 0
    ∧ (∀ a b : String, compare_versions a b = -compare_versions b a)
    ∧ (∀ a b : String, ∀ p ∈ pySplitDot a.data, pyParseIntChars p = none →
        compare_versions a b = 0 ∧ compare_versions b a = 0) := by
  have hanti : ∀ a b : String, compare_versions a b = -compare_versions b a := by
    intro a b
    unfold compare_versions
    rcases ha : parseParts (pySplitDot a.data) with _ | la
    · rcases hb : parseParts (pySplitDot b.data) with _ | lb <;> simp
    · rcases hb : parseParts (pySplitDot b.data) with _ | lb
      · simp
      · exact cmpZip_antisymm _ _
  refine ⟨?_, by decide, by decide, hanti, ?_⟩
  · intro a
    have h := hanti a a
    omega
  · intro a b p hmem hp
    have ha : parseParts (pySplitDot a.data) = none := parseParts_eq_none hp hmem
    constructor
    · unfold compare_versions
      rw [ha]
    · unfold compare_versions
      rw [ha]
      cases parseParts (pySplitDot b.data) <;> rfl

/-- Witness for C10: the non-numeric component "x" forces result 0 in both
argument orders. -/
theorem C10_witness :
    compare_versions "1.x" "2.0" = 0 ∧ compare_versions "2.0" "1.x" = 0 :=
  C10_compare_versions.2.2.2.2 "1.x" "2.0" "x".data (by decide) (by decide)

/-- C2: whenever the read loop is entered (resolution and spawn succeeded)
and the stderr stream reaches end-of-stream with no stop requested and the
child process still running (`poll()` returns `None`), the worker emits the
fallback `connected True` as the final notification — regardless of whether
any line ever matched the heuristic (`stderrLines` is arbitrary). -/
theorem C2_fallback_connected (env : RunEnv) (dns : String)
    (hres : get_instance_public_dns env.instance_id env.resolve = ([], some dns))
    (hspawn : env.spawn = SpawnEnv.ok)
    (hstop : env.stopAt = none)
    (hpoll : env.pollAtEnd = none) :
    threadTrace env =
      [Event.log ("Conectando a " ++ dns ++ "..."), Event.log "Iniciando proceso SSH..."]
        ++ readLoop none 0 env.stderrLines
        ++ [Event.connected true, Event.finished] := by
  simp [threadTrace, SSHWorker.run, hres, hspawn, hpoll, hstop, flagAt]

/-- Witness for C2 at a concrete environment with an empty stderr stream. -/
theorem C2_witness :
    threadTrace envC2w =
      [Event.log ("Conectando a " ++ "h" ++ "..."), Event.log "Iniciando proceso SSH..."]
        ++ readLoop none 0 envC2w.stderrLines
        ++ [Event.connected true, Event.finished] :=
  C2_fallback_connected envC2w "h" (by decide) rfl rfl rfl

/-- C3 counterexample: in `envC3` a line is classified `LikelyConnected`
(`connected True` is emitted for it), yet because the stream then ends with
the child already exited and no stop pending, the failure notification
`connected False` is still emitted.  This refutes the claim that the Failed
emission occurs only when no line was ever classified `LikelyConnected`. -/
theorem C3_counterexample :
    isConnectedLine
        (pyRstrip "Warning: Permanently added host to the list of known hosts.\n") = true
    ∧ Event.connected true ∈ threadTrace envC3
    ∧ Event.connected false ∈ threadTrace envC3 := by
  decide

/-- C3 amended: with resolution and spawn successful, the failure
notification — `connected False` immediately preceded by the log line
carrying the exit code and the stripped remaining stderr buffer — is emitted
exactly when the stream ends with no stop request pending and the child
process already exited; if the child is still running, or a stop request is
pending at the post-loop check, no `connected False` is emitted.  Earlier
`LikelyConnected` classifications are irrelevant in all three cases. -/
theorem C3_failure_iff_exited (env : RunEnv) (dns : String)
    (hres : get_instance_public_dns env.instance_id env.resolve = ([], some dns))
    (hspawn : env.spawn = SpawnEnv.ok) :
    (∀ rc : Int, env.stopAt = none → env.pollAtEnd = some rc →
      threadTrace env =
        [Event.log ("Conectando a " ++ dns ++ "..."), Event.log "Iniciando proceso SSH..."]
          ++ readLoop none 0 env.stderrLines
          ++ [Event.log ("SSH finalizó (rc=" ++ toString rc ++ "): " ++ pyStrip env.stderrRest),
              Event.connected false, Event.finished])
    ∧ (env.stopAt = none → env.pollAtEnd = none →
        Event.connected false ∉ threadTrace env)
    ∧ (∀ k : Nat, env.stopAt = some k → k ≤ env.stderrLines.length →
        Event.connected false ∉ threadTrace env) := by
  refine ⟨?_, ?_, ?_⟩
  · intro rc h0 hp
    simp [threadTrace, SSHWorker.run, hres, hspawn, hp, h0, flagAt]
  · intro h0 hp
    simp [threadTrace, SSHWorker.run, hres, hspawn, hp, h0, flagAt,
      readLoop_no_connected_false]
  · intro k hk hkn
    have hf : flagAt env.stopAt env.stderrLines.length = true := by
      rw [hk]
      simp [flagAt, hkn]
    simp [threadTrace, SSHWorker.run, hres, hspawn, hf,
      readLoop_no_connected_false]

/-- Witness for the amended C3 at a concrete environment: the child exited
with code 255 at end-of-stream. -/
theorem C3_amended_witness :
    threadTrace envC3w =
      [Event.log ("Conectando a " ++ "h" ++ "..."), Event.log "Iniciando proceso SSH..."]
        ++ readLoop none 0 envC3w.stderrLines
        ++ [Event.log ("SSH finalizó (rc=" ++ toString (255 : Int) ++ "): "
              ++ pyStrip envC3w.stderrRest),
            Event.connected false, Event.finished] :=
  (C3_failure_iff_exited envC3w "h" (by decide) rfl).1 255 rfl rfl

/-- C4 counterexample: in `envC4` stop is requested before any status
notification has been emitted, resolution and spawn succeed, and the worker
then emits zero status notifications on the channel — not exactly one
terminal notification as claimed. -/
theorem C4_counterexample :
    envC4.stopAt = some 0 ∧ statusCount (threadTrace envC4) = 0 := by
  decide

/-- C4 amended: when stop is requested before any connected notification has
been emitted — formalised as: the stop flag is first observed at loop check
`k`, and whenever the read loop is reached, `k` lies within the loop checks
(`k ≤ stderrLines.length`, so the post-loop block is skipped) and none of
the `k` lines forwarded before the break matches the classifier (a matching
earlier line would have emitted `connected True` before the stop) — the
worker emits at most one status notification (zero when the read loop was
reached, one `connected False` when resolution or spawning had already
failed), never emits `connected True`, and the thread-termination event is
the unique final event of the trace, so no log line follows it. -/
theorem C4_stop_before_any_status (env : RunEnv) (k : Nat)
    (hk : env.stopAt = some k)
    (hbefore : env.spawn = SpawnEnv.ok →
      (get_instance_public_dns env.instance_id env.resolve).2 ≠ none →
      k ≤ env.stderrLines.length ∧
        ∀ line ∈ env.stderrLines.take k, isConnectedLine (pyRstrip line) = false) :
    statusCount (threadTrace env) ≤ 1
    ∧ Event.connected true ∉ threadTrace env
    ∧ threadTrace env = (SSHWorker.run env).1 ++ [Event.finished]
    ∧ Event.finished ∉ (SSHWorker.run env).1 := by
  rcases resolve_cases env.instance_id env.resolve with ⟨m, hr⟩ | ⟨dns, hr⟩
  · refine ⟨?_, ?_, rfl, run_no_finished env⟩ <;>
      simp [threadTrace, SSHWorker.run, hr, statusCount, isStatusEvent]
  · rcases hs : env.spawn with _ | _ | msg
    · obtain ⟨hkn, hnomatch⟩ := hbefore hs (by rw [hr]; simp)
      have hf : flagAt env.stopAt env.stderrLines.length = true := by
        rw [hk]
        simp [flagAt, hkn]
      have hloop : ∀ e ∈ readLoop env.stopAt 0 env.stderrLines, ∃ m2, e = Event.log m2 := by
        rw [hk]
        exact readLoop_nomatch k env.stderrLines 0 (by simpa using hnomatch)
      have hcount : List.countP isStatusEvent (readLoop env.stopAt 0 env.stderrLines) = 0 := by
        rw [List.countP_eq_zero]
        intro e he
        obtain ⟨m2, rfl⟩ := hloop e he
        simp [isStatusEvent]
      have hct : Event.connected true ∉ readLoop env.stopAt 0 env.stderrLines := by
        intro hmem
        obtain ⟨m2, hm2⟩ := hloop _ hmem
        simp at hm2
      refine ⟨?_, ?_, rfl, run_no_finished env⟩
      · simp [threadTrace, SSHWorker.run, hr, hs, hf, statusCount, isStatusEvent,
          List.countP_append, hcount]
      · simp [threadTrace, SSHWorker.run, hr, hs, hf, hct]
    · refine ⟨?_, ?_, rfl, run_no_finished env⟩ <;>
        simp [threadTrace, SSHWorker.run, hr, hs, statusCount, isStatusEvent]
    · refine ⟨?_, ?_, rfl, run_no_finished env⟩ <;>
        simp [threadTrace, SSHWorker.run, hr, hs, statusCount, isStatusEvent]

/-- Witness for the amended C4: stop first observed at loop check 1, after
one forwarded non-matching line — zero status notifications are emitted. -/
theorem C4_amended_witness : statusCount (threadTrace envC4w) ≤ 1 :=
  (C4_stop_before_any_status envC4w 1 rfl (fun _ _ => ⟨by decide, by decide⟩)).1

/-- C5: when the spawn raises `FileNotFoundError` (ssh absent from PATH),
the worker emits exactly one status notification — `connected False` —
preceded by the log line reporting the missing executable, and `self._proc`
is never assigned, so no child process is retained or left running. -/
theorem C5_file_not_found (env : RunEnv) (dns : String)
    (hres : get_instance_public_dns env.instance_id env.resolve = ([], some dns))
    (hspawn : env.spawn = SpawnEnv.fileNotFound) :
    threadTrace env =
      [Event.log ("Conectando a " ++ dns ++ "..."),
        Event.log "Iniciando proceso SSH...",
        Event.log "Error: \x27ssh\x27 no se encuentra en PATH. Verifica que SSH esté instalado.",
        Event.connected false, Event.finished]
    ∧ statusCount (threadTrace env) = 1
    ∧ (SSHWorker.run env).2 = false := by
  refine ⟨?_, ?_, ?_⟩ <;>
    simp [threadTrace, SSHWorker.run, hres, hspawn, statusCount, isStatusEvent]

/-- Witness for C5 at a concrete environment. -/
theorem C5_witness : statusCount (threadTrace envC5w) = 1 :=
  (C5_file_not_found envC5w "h" (by decide) rfl).2.1

/-- C6: every target-resolution failure — API exception, no reservation, no
instance, missing or empty public DNS name — is treated identically to a
launch failure: the worker emits its resolution log line followed by exactly
one `connected False` and returns without ever spawning the SSH child
process (`self._proc` never assigned). -/
theorem C6_resolution_failure :
    (∀ env : RunEnv, (get_instance_public_dns env.instance_id env.resolve).2 = none →
      threadTrace env = (get_instance_public_dns env.instance_id env.resolve).1
          ++ [Event.connected false, Event.finished]
        ∧ statusCount (threadTrace env) = 1
        ∧ (SSHWorker.run env).2 = false)
    ∧ (∀ (instance_id msg : String),
        (get_instance_public_dns instance_id (ResolveEnv.apiError msg)).2 = none)
    ∧ (∀ instance_id : String,
        (get_instance_public_dns instance_id (ResolveEnv.response ⟨[]⟩)).2 = none)
    ∧ (∀ (instance_id : String) (rs : List Reservation),
        (get_instance_public_dns instance_id (ResolveEnv.response ⟨⟨[]⟩ :: rs⟩)).2 = none)
    ∧ (∀ (instance_id : String) (rs : List Reservation) (is2 : List Ec2Instance),
        (get_instance_public_dns instance_id
          (ResolveEnv.response ⟨⟨⟨none⟩ :: is2⟩ :: rs⟩)).2 = none)
    ∧ (∀ (instance_id : String) (rs : List Reservation) (is2 : List Ec2Instance),
        (get_instance_public_dns instance_id
          (ResolveEnv.response ⟨⟨⟨some ""⟩ :: is2⟩ :: rs⟩)).2 = none) := by
  refine ⟨?_, fun _ _ => rfl, fun _ => rfl, fun _ _ => rfl, fun _ _ _ => rfl, ?_⟩
  · intro env h
    rcases resolve_cases env.instance_id env.resolve with ⟨m, hr⟩ | ⟨dns, hr⟩
    · refine ⟨?_, ?_, ?_⟩ <;>
        simp [threadTrace, SSHWorker.run, hr, statusCount, isStatusEvent]
    · rw [hr] at h
      simp at h
  · intro instance_id rs is2
    simp [get_instance_public_dns, show "".isEmpty = true from rfl]

/-- Witness for C6, first conjunct, at the no-reservation environment. -/
theorem C6_witness : statusCount (threadTrace envC6w) = 1 :=
  (C6_resolution_failure.1 envC6w (by decide)).2.1

/-- C7: in every execution of the worker, every status notification in the
trace is preceded by an earlier log line; in particular every failure path
emits at least one human-readable log line before `connected False`. -/
theorem C7_log_before_status (env : RunEnv) (i : Nat) (b : Bool)
    (h : (threadTrace env).get? i = some (Event.connected b)) :
    ∃ j, j < i ∧ ∃ m, (threadTrace env).get? j = some (Event.log m) :=
  noEarlyStatus_spec (threadTrace env) (run_noEarlyStatus env) i b h

/-- Witness for C7: in the no-reservation environment the `connected False`
notification at index 1 is preceded by the resolution log line at index 0. -/
theorem C7_witness :
    ∃ j, j < 1 ∧ ∃ m, (threadTrace envC6w).get? j = some (Event.log m) :=
  C7_log_before_status envC6w 1 false (by decide)
